import Mathlib

/-!
Shallow embedding of `src/leo_triplet_3d.py` (Leo Triplet 3D visualization).

The Python code works with numpy float64 arrays.  Every float64 value is a
rational number, so the numeric model here is `ℚ` (exact arithmetic); the one
transcendental quantity, `np.cos(np.radians(dec_ngc))`, enters the computation
only as a single multiplicative factor on the east component, so the functions
below take that factor as an explicit parameter `c` and the theorems quantify
over it (in particular they hold at the exact rational float64 value the code
computes).  Vectors `np.array([x, y, z])` become the `Vec3` structure.
-/

/-- A 3-component vector, the model of a numpy array of shape (3,).
Components: x = east offset, y = north offset, z = line-of-sight offset. -/
structure Vec3 (α : Type) where
  x : α
  y : α
  z : α
deriving DecidableEq, Repr

namespace Vec3

instance [Add α] : Add (Vec3 α) := ⟨fun a b => ⟨a.x + b.x, a.y + b.y, a.z + b.z⟩⟩

instance [Sub α] : Sub (Vec3 α) := ⟨fun a b => ⟨a.x - b.x, a.y - b.y, a.z - b.z⟩⟩

instance [Zero α] : Zero (Vec3 α) := ⟨⟨0, 0, 0⟩⟩

instance [Mul α] : SMul α (Vec3 α) := ⟨fun t v => ⟨t * v.x, t * v.y, t * v.z⟩⟩

@[simp] theorem add_x [Add α] (a b : Vec3 α) : (a + b).x = a.x + b.x := rfl

@[simp] theorem add_y [Add α] (a b : Vec3 α) : (a + b).y = a.y + b.y := rfl

@[simp] theorem add_z [Add α] (a b : Vec3 α) : (a + b).z = a.z + b.z := rfl

@[simp] theorem sub_x [Sub α] (a b : Vec3 α) : (a - b).x = a.x - b.x := rfl

@[simp] theorem sub_y [Sub α] (a b : Vec3 α) : (a - b).y = a.y - b.y := rfl

@[simp] theorem sub_z [Sub α] (a b : Vec3 α) : (a - b).z = a.z - b.z := rfl

@[simp] theorem zero_x [Zero α] : (0 : Vec3 α).x = 0 := rfl

@[simp] theorem zero_y [Zero α] : (0 : Vec3 α).y = 0 := rfl

@[simp] theorem zero_z [Zero α] : (0 : Vec3 α).z = 0 := rfl

@[simp] theorem smul_x [Mul α] (t : α) (v : Vec3 α) : (t • v).x = t * v.x := rfl

@[simp] theorem smul_y [Mul α] (t : α) (v : Vec3 α) : (t • v).y = t * v.y := rfl

@[simp] theorem smul_z [Mul α] (t : α) (v : Vec3 α) : (t • v).z = t * v.z := rfl

theorem ext_iff {a b : Vec3 α} : a = b ↔ a.x = b.x ∧ a.y = b.y ∧ a.z = b.z := by
  constructor
  · intro h; subst h; exact ⟨rfl, rfl, rfl⟩
  · intro ⟨hx, hy, hz⟩; cases a; cases b; simp_all

/-- `np.dot` of two 3-vectors (rowwise dot product in the tail generator). -/
def dot [Add α] [Mul α] (a b : Vec3 α) : α := a.x * b.x + a.y * b.y + a.z * b.z

/-- Squared Euclidean norm: `np.linalg.norm(v)` squared. -/
def normSq [Add α] [Mul α] (a : Vec3 α) : α := dot a a

end Vec3

/-- The three galaxies of the table (keys of the `RA`/`DEC`/`REDSHIFT` dicts). -/
inductive Galaxy
  | ngc3628
  | m66
  | m65
deriving DecidableEq, Repr

namespace GalaxyData

/-- `GalaxyData.RA`: right ascension in hours. -/
def RA : Galaxy → ℚ
  | .ngc3628 => 11 + 20/60 + 17/3600
  | .m66     => 11 + 20/60 + 15/3600
  | .m65     => 11 + 18/60 + 56/3600

/-- `GalaxyData.DEC`: declination in degrees. -/
def DEC : Galaxy → ℚ
  | .ngc3628 => 13 + 35/60 + 23/3600
  | .m66     => 12 + 59/60 + 30/3600
  | .m65     => 13 + 5/60 + 32/3600

/-- `GalaxyData.REDSHIFT`: redshift velocity in km/s. -/
def REDSHIFT : Galaxy → ℚ
  | .ngc3628 => 843
  | .m66     => 727
  | .m65     => 807

/-- `GalaxyData.DISTANCE` (kpc). -/
def DISTANCE : ℚ := 10700

/-- `GalaxyData.DEGREE_TO_KPC` (kpc per degree at this distance). -/
def DEGREE_TO_KPC : ℚ := 187

/-- The dict `ra_deg = {name: hours * 15 ...}` in
`get_positions_relative_to_ngc3628`. -/
def ra_deg (g : Galaxy) : ℚ := RA g * 15

/-- `GalaxyData.get_positions_relative_to_ngc3628`, one galaxy's entry.
`c` stands for the factor `np.cos(np.radians(dec_ngc))` (a float64, hence a
rational); everything else is the code's exact arithmetic:
east  = (ra_deg[name] - ra_deg["NGC 3628"]) * DEGREE_TO_KPC * cos(dec_ngc),
north = (DEC[name] - DEC["NGC 3628"]) * DEGREE_TO_KPC,
los   = (REDSHIFT[name] - REDSHIFT["NGC 3628"]) * 0.1. -/
def get_positions_relative_to_ngc3628 (c : ℚ) (g : Galaxy) : Vec3 ℚ :=
  ⟨(ra_deg g - ra_deg .ngc3628) * DEGREE_TO_KPC * c,
   (DEC g - DEC .ngc3628) * DEGREE_TO_KPC,
   (REDSHIFT g - REDSHIFT .ngc3628) * (1/10)⟩

/-- `GalaxyData.get_center`: `np.mean` of the three relative positions. -/
def get_center (c : ℚ) : Vec3 ℚ :=
  (1/3 : ℚ) • (get_positions_relative_to_ngc3628 c .ngc3628 +
               get_positions_relative_to_ngc3628 c .m66 +
               get_positions_relative_to_ngc3628 c .m65)

/-- `GalaxyData.get_positions`: positions relative to the triplet center,
`pos - center` for each galaxy. -/
def get_positions (c : ℚ) (g : Galaxy) : Vec3 ℚ :=
  get_positions_relative_to_ngc3628 c g - get_center c

/-- The spec's own wording of the pre-centering offset formula (section 4.1):
east = (target.ra - reference.ra) converted hours→degrees via ×15, times
degree_to_length, times cos(reference.dec); north = (target.dec -
reference.dec) × degree_to_length; line-of-sight = velocity difference × 0.1.
Written from the spec's words, to be compared with the code's
`get_positions_relative_to_ngc3628`. -/
def spec_offset (c : ℚ) (g : Galaxy) : Vec3 ℚ :=
  ⟨(RA g - RA .ngc3628) * 15 * DEGREE_TO_KPC * c,
   (DEC g - DEC .ngc3628) * DEGREE_TO_KPC,
   (REDSHIFT g - REDSHIFT .ngc3628) * (1/10)⟩

end GalaxyData

/-- Claim C1: for the fixed galaxy table the three centroid-relative
PositionVectors returned by `get_positions` sum to the zero vector, for every
value `c` of the cosine factor (exactly, in exact arithmetic). -/
theorem claim_C1_centered_sum_zero (c : ℚ) :
    GalaxyData.get_positions c .ngc3628 + GalaxyData.get_positions c .m66 +
      GalaxyData.get_positions c .m65 = 0 := by
  rw [Vec3.ext_iff]
  simp only [GalaxyData.get_positions, GalaxyData.get_center,
    GalaxyData.get_positions_relative_to_ngc3628, Vec3.add_x, Vec3.add_y, Vec3.add_z,
    Vec3.sub_x, Vec3.sub_y, Vec3.sub_z, Vec3.smul_x, Vec3.smul_y, Vec3.smul_z,
    Vec3.zero_x, Vec3.zero_y, Vec3.zero_z]
  refine ⟨by ring, by ring, by ring⟩

/-- Claim C2: componentwise, every galaxy's pre-centering offset computed by
`get_positions_relative_to_ngc3628` equals the spec's formula (RA difference
taken in hours then scaled by 15, etc.), for every cosine factor `c`. -/
theorem claim_C2_offset_formula (c : ℚ) (g : Galaxy) :
    GalaxyData.get_positions_relative_to_ngc3628 c g = GalaxyData.spec_offset c g := by
  cases g <;>
    (rw [Vec3.ext_iff]
     simp only [GalaxyData.get_positions_relative_to_ngc3628, GalaxyData.spec_offset,
       GalaxyData.ra_deg]
     exact ⟨by ring, by ring, by ring⟩)

/-- Claim C3: the reference galaxy NGC 3628's own pre-centering entry is
exactly the zero vector, with no tolerance needed, for every cosine factor. -/
theorem claim_C3_reference_offset_zero (c : ℚ) :
    GalaxyData.get_positions_relative_to_ngc3628 c .ngc3628 = 0 := by
  rw [Vec3.ext_iff]
  simp only [GalaxyData.get_positions_relative_to_ngc3628, Vec3.zero_x, Vec3.zero_y,
    Vec3.zero_z]
  exact ⟨by ring, by ring, by ring⟩

/-- Claim C4: post-centering and with the fixed table, NGC 3628's north
component is strictly positive while M66's and M65's are strictly negative
(the north components do not involve the cosine factor, so this holds for
every `c`); hence the corresponding assertions in `verify_conventions` hold. -/
theorem claim_C4_north_signs (c : ℚ) :
    0 < (GalaxyData.get_positions c .ngc3628).y ∧
      (GalaxyData.get_positions c .m66).y < 0 ∧
      (GalaxyData.get_positions c .m65).y < 0 := by
  simp only [GalaxyData.get_positions, GalaxyData.get_center,
    GalaxyData.get_positions_relative_to_ngc3628, Vec3.sub_y, Vec3.smul_y, Vec3.add_y,
    GalaxyData.DEC, GalaxyData.DEGREE_TO_KPC]
  norm_num

namespace Config

/-- `Config.TAIL_POINTS`. -/
def TAIL_POINTS : ℕ := 2500

/-- `Config.TAIL_LENGTH` (kpc). -/
def TAIL_LENGTH : ℚ := 86

/-- `Config.TAIL_WIDTH`. -/
def TAIL_WIDTH : ℚ := 4

/-- `Config.TAIL_ALPHA` (the float 0.2, i.e. the decimal 1/5). -/
def TAIL_ALPHA : ℚ := 1/5

/-- `Config.TAIL_DIRECTION`: the array [1.0, 0.15, -0.1]. -/
def TAIL_DIRECTION : Vec3 ℚ := ⟨1, 15/100, -(1/10)⟩

/-- `Config.AXIS_LIMIT` (kpc). -/
def AXIS_LIMIT : ℚ := 150

/-- `Config.ZOOM_SCALE` (the float 1.2, i.e. the decimal 6/5). -/
def ZOOM_SCALE : ℚ := 6/5

end Config

namespace TidalTail

/-- The noise update `noise -= np.outer(np.dot(noise, dir_unit), dir_unit)`
in `TidalTail.generate`, for one row `n` of the Gaussian noise matrix:
the component of `n` along `dir_unit` is subtracted. -/
def removeParallel [Field α] (dir_unit n : Vec3 α) : Vec3 α :=
  n - (Vec3.dot n dir_unit) • dir_unit

/-- The curvature row of `TidalTail.generate` for one sample `t`:
`t_centered = t - 0.5`; x = t_centered * 5, y = t_centered * 8,
z = |t_centered| * 5. -/
def curvature [LinearOrderedField α] (t : α) : Vec3 α :=
  ⟨(t - 1/2) * 5, (t - 1/2) * 8, |t - 1/2| * 5⟩

/-- `TidalTail.generate`, with the random draws as inputs.
`ngc_pos` is the anchor galaxy's position; `direction` is
`TAIL_DIRECTION / ‖TAIL_DIRECTION‖ * TAIL_LENGTH` and `dir_unit` its
renormalization `direction / ‖direction‖` (both float vectors, passed in
because their norms are irrational in exact arithmetic); `t` is the list of
`np.random.beta(0.6, 1.8, TAIL_POINTS)` samples and `noise` the rows of the
`np.random.normal(0, TAIL_WIDTH, (TAIL_POINTS, 3))` matrix.  The elementwise
numpy operations `points = ngc_pos + np.outer(t, direction)`, the noise
projection and `points + noise + curvature` become a rowwise `zipWith`. -/
def generate [LinearOrderedField α] (ngc_pos direction dir_unit : Vec3 α)
    (t : List α) (noise : List (Vec3 α)) : List (Vec3 α) :=
  List.zipWith
    (fun ti ni => (ngc_pos + ti • direction) + removeParallel dir_unit ni + curvature ti)
    t noise

end TidalTail

/-- Claim C5: whatever the outcome of the random draws (numpy returns exactly
`TAIL_POINTS` beta samples and a `TAIL_POINTS × 3` noise matrix),
`TidalTail.generate` returns exactly `Config.TAIL_POINTS` = 2500 rows. -/
theorem claim_C5_generate_length (ngc_pos direction dir_unit : Vec3 ℚ)
    (t : List ℚ) (noise : List (Vec3 ℚ))
    (ht : t.length = Config.TAIL_POINTS) (hn : noise.length = Config.TAIL_POINTS) :
    (TidalTail.generate ngc_pos direction dir_unit t noise).length = Config.TAIL_POINTS := by
  simp [TidalTail.generate, List.length_zipWith, ht, hn]

/-- Witness for C5 at a concrete outcome of the draws. -/
theorem claim_C5_generate_length_witness :
    (List.replicate 2500 (0 : ℚ)).length = Config.TAIL_POINTS ∧
      (List.replicate 2500 (0 : Vec3 ℚ)).length = Config.TAIL_POINTS ∧
      (TidalTail.generate 0 0 0 (List.replicate 2500 (0 : ℚ))
        (List.replicate 2500 (0 : Vec3 ℚ))).length = Config.TAIL_POINTS :=
  ⟨by rw [List.length_replicate, Config.TAIL_POINTS],
   by rw [List.length_replicate, Config.TAIL_POINTS],
   claim_C5_generate_length 0 0 0 _ _ (by rw [List.length_replicate, Config.TAIL_POINTS])
     (by rw [List.length_replicate, Config.TAIL_POINTS])⟩

/-- Claim C6: for every noise row `n`, once the component parallel to the
tail direction is subtracted (`noise -= outer(noise·u, u)` with `u` the unit
direction, `u·u = 1`), the residual row is exactly orthogonal to the tail
direction. -/
theorem claim_C6_residual_orthogonal (u : Vec3 ℝ) (hu : Vec3.dot u u = 1)
    (n : Vec3 ℝ) : Vec3.dot (TidalTail.removeParallel u n) u = 0 := by
  simp only [Vec3.dot] at hu
  simp only [TidalTail.removeParallel, Vec3.dot, Vec3.sub_x, Vec3.sub_y, Vec3.sub_z,
    Vec3.smul_x, Vec3.smul_y, Vec3.smul_z]
  linear_combination (-(n.x * u.x) - n.y * u.y - n.z * u.z) * hu

/-- Witness for C6 at a concrete unit direction and noise row. -/
theorem claim_C6_residual_orthogonal_witness :
    Vec3.dot (⟨1, 0, 0⟩ : Vec3 ℝ) ⟨1, 0, 0⟩ = 1 ∧
      Vec3.dot (TidalTail.removeParallel (⟨1, 0, 0⟩ : Vec3 ℝ) ⟨2, 3, 4⟩) ⟨1, 0, 0⟩ = 0 :=
  ⟨by simp [Vec3.dot], claim_C6_residual_orthogonal ⟨1, 0, 0⟩ (by simp [Vec3.dot]) ⟨2, 3, 4⟩⟩

/-- Claim C10: centroid subtraction is a pure translation, so the difference
of any two centered positions equals the difference of the pre-centering
offsets, and hence the Euclidean edge length computed in `plot_triangle`
from centered positions equals the true pre-centering inter-galaxy distance. -/
theorem claim_C10_translation_invariant_distances (c : ℚ) (g1 g2 : Galaxy) :
    GalaxyData.get_positions c g1 - GalaxyData.get_positions c g2 =
        GalaxyData.get_positions_relative_to_ngc3628 c g1 -
          GalaxyData.get_positions_relative_to_ngc3628 c g2 ∧
      Real.sqrt ((Vec3.normSq (GalaxyData.get_positions c g1 -
          GalaxyData.get_positions c g2) : ℚ) : ℝ) =
        Real.sqrt ((Vec3.normSq (GalaxyData.get_positions_relative_to_ngc3628 c g1 -
          GalaxyData.get_positions_relative_to_ngc3628 c g2) : ℚ) : ℝ) := by
  have h : GalaxyData.get_positions c g1 - GalaxyData.get_positions c g2 =
      GalaxyData.get_positions_relative_to_ngc3628 c g1 -
        GalaxyData.get_positions_relative_to_ngc3628 c g2 := by
    rw [Vec3.ext_iff]
    simp only [GalaxyData.get_positions, Vec3.sub_x, Vec3.sub_y, Vec3.sub_z]
    exact ⟨by ring, by ring, by ring⟩
  exact ⟨h, by rw [h]⟩

namespace LeoTripletPlotter

/-- Per-point marker size in `plot_tidal_tail`:
`sizes = 1 + 3 * (distances / distances.max())`, at one distance `d` with
maximum distance `dmax`. -/
def sizes (d dmax : ℚ) : ℚ := 1 + 3 * (d / dmax)

/-- Per-point opacity in `plot_tidal_tail`:
`alphas = TAIL_ALPHA * (0.5 + 0.5 * distances / distances.max())`, at one
distance `d` with maximum distance `dmax`. -/
def alphas (d dmax : ℚ) : ℚ := Config.TAIL_ALPHA * (1/2 + 1/2 * d / dmax)

/-- The mouse-wheel zoom rescale applied to one axis in `enable_zoom`:
`mid = np.mean(limits); half = (limits[1] - limits[0]) * scale / 2;
setter([mid - half, mid + half])`. -/
def rescale (scale : ℚ) (limits : ℚ × ℚ) : ℚ × ℚ :=
  ((limits.1 + limits.2) / 2 - (limits.2 - limits.1) * scale / 2,
   (limits.1 + limits.2) / 2 + (limits.2 - limits.1) * scale / 2)

/-- One scroll event in `enable_zoom`: the same rescale is applied to the
x, y and z axis limit pairs. -/
def on_scroll (scale : ℚ) (s : (ℚ × ℚ) × (ℚ × ℚ) × (ℚ × ℚ)) :
    (ℚ × ℚ) × (ℚ × ℚ) × (ℚ × ℚ) :=
  (rescale scale s.1, rescale scale s.2.1, rescale scale s.2.2)

/-- `plot_earth`: `earth_pos = np.array([0, 0, -150])`. -/
def earth_pos : Vec3 ℚ := ⟨0, 0, -150⟩

/-- `plot_earth`: `start = earth_pos + np.array([x_offset, y_offset, 0])`. -/
def sight_line_start (x_offset y_offset : ℚ) : Vec3 ℚ :=
  earth_pos + ⟨x_offset, y_offset, 0⟩

/-- `plot_earth`: each sight line is plotted as
`ax.plot([start[0], 0], [start[1], 0], [start[2], 50], ...)`, so its second
endpoint is the fixed point (0, 0, 50). -/
def sight_line_end : Vec3 ℚ := ⟨0, 0, 50⟩

/-- The four sight lines of `plot_earth`, in loop order
(`for x_offset in [-30, 30]: for y_offset in [-30, 30]:`), each as the pair
(start point, end point). -/
def sight_lines : List (Vec3 ℚ × Vec3 ℚ) :=
  [(sight_line_start (-30) (-30), sight_line_end),
   (sight_line_start (-30) 30, sight_line_end),
   (sight_line_start 30 (-30), sight_line_end),
   (sight_line_start 30 30, sight_line_end)]

end LeoTripletPlotter

/-- Counterexample to claim C7 as stated: the point at distance 10 from the
anchor (with maximum distance 100) is strictly SMALLER and LESS opaque than
the point at distance 20, so closer points are not larger/more opaque. -/
theorem claim_C7_counterexample :
    LeoTripletPlotter.sizes 10 100 < LeoTripletPlotter.sizes 20 100 ∧
      LeoTripletPlotter.alphas 10 100 < LeoTripletPlotter.alphas 20 100 := by
  constructor <;> norm_num [LeoTripletPlotter.sizes, LeoTripletPlotter.alphas,
    Config.TAIL_ALPHA]

/-- Claim C7 amended: per-point size and opacity grow strictly with distance
from the anchor (farther points are larger and more opaque), with opacity a
linear ramp from 0.5 × TAIL_ALPHA at distance 0 to TAIL_ALPHA at the maximum
distance, and size a linear ramp from 1 to 4 units. -/
theorem claim_C7_amended_ramps (d1 d2 dmax : ℚ) (hdmax : 0 < dmax) (h12 : d1 < d2) :
    LeoTripletPlotter.sizes d1 dmax < LeoTripletPlotter.sizes d2 dmax ∧
      LeoTripletPlotter.alphas d1 dmax < LeoTripletPlotter.alphas d2 dmax ∧
      LeoTripletPlotter.sizes 0 dmax = 1 ∧
      LeoTripletPlotter.sizes dmax dmax = 4 ∧
      LeoTripletPlotter.alphas 0 dmax = Config.TAIL_ALPHA * (1/2) ∧
      LeoTripletPlotter.alphas dmax dmax = Config.TAIL_ALPHA := by
  have hne : dmax ≠ 0 := ne_of_gt hdmax
  refine ⟨?_, ?_, ?_, ?_, ?_, ?_⟩
  · unfold LeoTripletPlotter.sizes
    gcongr
  · unfold LeoTripletPlotter.alphas Config.TAIL_ALPHA
    gcongr
  · unfold LeoTripletPlotter.sizes
    norm_num
  · unfold LeoTripletPlotter.sizes
    rw [div_self hne]
    norm_num
  · unfold LeoTripletPlotter.alphas
    norm_num
  · unfold LeoTripletPlotter.alphas
    rw [mul_div_assoc, div_self hne]
    norm_num

/-- Witness for the amended C7 at concrete distances 1 < 2 with maximum 2. -/
theorem claim_C7_amended_ramps_witness :
    (0 : ℚ) < 2 ∧ (1 : ℚ) < 2 ∧
      (LeoTripletPlotter.sizes 1 2 < LeoTripletPlotter.sizes 2 2 ∧
        LeoTripletPlotter.alphas 1 2 < LeoTripletPlotter.alphas 2 2 ∧
        LeoTripletPlotter.sizes 0 2 = 1 ∧
        LeoTripletPlotter.sizes 2 2 = 4 ∧
        LeoTripletPlotter.alphas 0 2 = Config.TAIL_ALPHA * (1/2) ∧
        LeoTripletPlotter.alphas 2 2 = Config.TAIL_ALPHA) :=
  ⟨by norm_num, by norm_num,
   claim_C7_amended_ramps 1 2 2 (by norm_num) (by norm_num)⟩

/-- Claim C8: for every starting triple of axis limit pairs, a scroll rescale
by ZOOM_SCALE followed by one by its reciprocal restores all three axes'
limits exactly, and every single rescale keeps each axis midpoint unchanged. -/
theorem claim_C8_zoom_roundtrip (s : (ℚ × ℚ) × (ℚ × ℚ) × (ℚ × ℚ)) :
    LeoTripletPlotter.on_scroll Config.ZOOM_SCALE⁻¹
        (LeoTripletPlotter.on_scroll Config.ZOOM_SCALE s) = s ∧
      ∀ scale : ℚ, ∀ limits : ℚ × ℚ,
        ((LeoTripletPlotter.rescale scale limits).1 +
            (LeoTripletPlotter.rescale scale limits).2) / 2 =
          (limits.1 + limits.2) / 2 := by
  constructor
  · obtain ⟨⟨a, b⟩, ⟨u, v⟩, ⟨w, t⟩⟩ := s
    simp only [LeoTripletPlotter.on_scroll, LeoTripletPlotter.rescale,
      Config.ZOOM_SCALE, Prod.mk.injEq]
    norm_num
    refine ⟨⟨by ring, by ring⟩, ⟨by ring, by ring⟩, ⟨by ring, by ring⟩⟩
  · intro scale limits
    simp only [LeoTripletPlotter.rescale]
    ring

/-- Counterexample to claim C9 as stated: the first sight line drawn in
`plot_earth` terminates at (0, 0, 50), which is not the centroid origin. -/
theorem claim_C9_counterexample :
    LeoTripletPlotter.sight_lines.head? =
        some (⟨-30, -30, -150⟩, ⟨0, 0, 50⟩) ∧
      ((⟨0, 0, 50⟩ : Vec3 ℚ) ≠ ⟨0, 0, 0⟩) := by
  constructor
  · simp only [LeoTripletPlotter.sight_lines, List.head?_cons, Option.some.injEq,
      Prod.mk.injEq, LeoTripletPlotter.sight_line_start, LeoTripletPlotter.sight_line_end,
      LeoTripletPlotter.earth_pos]
    norm_num [Vec3.ext_iff]
  · intro h
    rw [Vec3.ext_iff] at h
    exact absurd h.2.2 (by norm_num)

/-- Claim C9 amended: the observer marker sits at the hardcoded (0, 0, -150)
on the negative line-of-sight axis, and the four faint dotted sight-lines
start at (±30, ±30) offsets from it and all terminate at the fixed point
(0, 0, 50) — on the centroid's line of sight (x = y = 0) but 50 kpc past the
group center along +Z, not at the origin. -/
theorem claim_C9_amended_sight_lines :
    LeoTripletPlotter.earth_pos = ⟨0, 0, -150⟩ ∧
      LeoTripletPlotter.sight_lines =
        [(⟨-30, -30, -150⟩, ⟨0, 0, 50⟩), (⟨-30, 30, -150⟩, ⟨0, 0, 50⟩),
         (⟨30, -30, -150⟩, ⟨0, 0, 50⟩), (⟨30, 30, -150⟩, ⟨0, 0, 50⟩)] := by
  constructor
  · rfl
  · show LeoTripletPlotter.sight_lines = _
    simp only [LeoTripletPlotter.sight_lines, LeoTripletPlotter.sight_line_start,
      LeoTripletPlotter.sight_line_end, LeoTripletPlotter.earth_pos]
    norm_num [Vec3.ext_iff]
